import Mathlib

/-!
Verification of the solar charge controller websocket client
(`client.py`, class `SolarControllerClient`).

The Python code is shallowly embedded:

* JSON values (the results of `json.loads`, and the values stored in
  command/response dictionaries) are modelled by the inductive `Json`.
  JSON numbers are modelled as integers only; the code under audit never
  manipulates fractional values.  Python dictionaries are modelled as
  association lists in insertion order with unique keys (as produced by
  `json.loads`), so dictionary equality is modelled structurally.
* `str(x)` is modelled by `pyStr`, Python truthiness by `pyTruthy` and
  Python `==` by `pyEq` (with the usual bool/int numeric identification).
* External I/O (the websocket and `json.loads` applied to received text)
  is modelled by explicit oracle parameters: a `parse` function standing
  for `json.loads` on strings, and per-call outcome values standing for
  what the transport did.
* Python exceptions are modelled with `Except`: a helper `...Core`
  definition returns `Except Unit α` and the catching wrapper matches on
  it, exactly where the source has `try`/`except`.
-/

inductive Json where
  | null
  | bool (b : Bool)
  | int (n : Int)
  | str (s : String)
  | arr (xs : List Json)
  | obj (kvs : List (String × Json))

/-- A single ASCII apostrophe, used by the Python `repr` of strings. -/
def pyQuote : String := String.mk [Char.ofNat 39]

mutual
/-- Python `repr` of a deserialized JSON value (string escaping inside
`repr` of strings is not modelled; no claim formats a container holding
a string needing escapes). -/
def pyRepr : Json → String
  | .null => "None"
  | .bool b => cond b "True" "False"
  | .int n => toString n
  | .str s => pyQuote ++ s ++ pyQuote
  | .arr xs => "[" ++ String.intercalate ", " (pyReprList xs) ++ "]"
  | .obj kvs =>
      String.mk [Char.ofNat 123] ++ String.intercalate ", " (pyReprPairs kvs)
        ++ String.mk [Char.ofNat 125]
def pyReprList : List Json → List String
  | [] => []
  | x :: xs => pyRepr x :: pyReprList xs
def pyReprPairs : List (String × Json) → List String
  | [] => []
  | (k, v) :: kvs => (pyQuote ++ k ++ pyQuote ++ ": " ++ pyRepr v) :: pyReprPairs kvs
end

/-- Python `str` of a deserialized JSON value. -/
def pyStr : Json → String
  | .null => "None"
  | .bool b => cond b "True" "False"
  | .int n => toString n
  | .str s => s
  | .arr xs => pyRepr (.arr xs)
  | .obj kvs => pyRepr (.obj kvs)

/-- Python truthiness of a deserialized JSON value. -/
def pyTruthy : Json → Bool
  | .null => false
  | .bool b => b
  | .int n => n != 0
  | .str s => s != ""
  | .arr xs => !xs.isEmpty
  | .obj kvs => !kvs.isEmpty

mutual
/-- Python `==` on deserialized JSON values (recursive part). -/
def pyEqRec : Json → Json → Bool
  | .null, .null => true
  | .bool a, .bool b => a == b
  | .bool a, .int b => (if a then (1 : Int) else 0) == b
  | .int a, .bool b => a == (if b then (1 : Int) else 0)
  | .int a, .int b => a == b
  | .str a, .str b => a == b
  | .arr a, .arr b => pyEqList a b
  | .obj a, .obj b => pyEqPairs a b
  | _, _ => false
def pyEqList : List Json → List Json → Bool
  | [], [] => true
  | x :: xs, y :: ys => pyEqRec x y && pyEqList xs ys
  | _, _ => false
def pyEqPairs : List (String × Json) → List (String × Json) → Bool
  | [], [] => true
  | (k, v) :: xs, (k2, v2) :: ys => k == k2 && pyEqRec v v2 && pyEqPairs xs ys
  | _, _ => false
end

/-- Python `==` on deserialized JSON values.  Dictionaries produced by
`json.loads` have unique keys in insertion order, and the client only
ever compares values against scalar literals, so the structural
dictionary comparison of `pyEqRec` is never exercised across orderings. -/
def pyEq : Json → Json → Bool
  | .null, .null => true
  | .bool a, .bool b => a == b
  | .bool a, .int b => (if a then (1 : Int) else 0) == b
  | .int a, .bool b => a == (if b then (1 : Int) else 0)
  | .int a, .int b => a == b
  | .str a, .str b => a == b
  | .arr a, .arr b => pyEqList a b
  | .obj a, .obj b => pyEqPairs a b
  | _, _ => false

/-- Dictionary lookup, `d.get(k)` / `d[k]` on a Python dict modelled as an
association list (first match; keys are unique). -/
def objGet (kvs : List (String × Json)) (k : String) : Option Json :=
  match kvs with
  | [] => none
  | p :: rest => if p.1 == k then some p.2 else objGet rest k

/-- `d[k] = v` on a Python dict: overwrite in place if the key exists,
otherwise append at the end (insertion order). -/
def dictSet (d : List (String × Json)) (k : String) (v : Json) :
    List (String × Json) :=
  match d with
  | [] => [(k, v)]
  | p :: rest => if p.1 == k then (k, v) :: rest else p :: dictSet rest k v

/-- `d.update(ps)` on a Python dict. -/
def dictUpdate (d ps : List (String × Json)) : List (String × Json) :=
  ps.foldl (fun acc p => dictSet acc p.1 p.2) d

/-- `json.loads(x)` where `x` is an arbitrary Python value: it raises
`TypeError` (modelled as `none`) unless `x` is a string, in which case the
ambient `parse` oracle decides whether the text is valid JSON and what it
denotes. -/
def pyLoads (parse : String → Option Json) : Json → Option Json
  | .str s => parse s
  | _ => none

/-! ## The value interpreter `_get_friendly_value` (client.py lines 281-357) -/

/-- The key/value list of a JSON object (only applied to objects). -/
def jObjKvs : Json → List (String × Json)
  | .obj kvs => kvs
  | _ => []

/-- `option.get("en_title") or option.get("title") or dflt`, followed by
the f-string conversion of the chosen value (Python `or` picks the first
truthy operand). -/
def orTitleStatus (kvs : List (String × Json)) (dflt : String) : String :=
  let en := (objGet kvs "en_title").getD .null
  if pyTruthy en then pyStr en
  else
    let ti := (objGet kvs "title").getD .null
    if pyTruthy ti then pyStr ti else dflt

/-- The loop of the boolean/status branch: return the display for the
first option whose stringified `value` equals the stringified raw value
(lines 312-321); `none` if no option matches. -/
def binaryScan (raw : Json) : List Json → Option String
  | [] => none
  | d :: rest =>
    let kvs := jObjKvs d
    if pyStr ((objGet kvs "value").getD .null) == pyStr raw then
      let dflt := if pyEq raw (.int 1) || pyEq raw (.str "1") then "ON" else "OFF"
      some (orTitleStatus kvs dflt ++ " (" ++ pyStr raw ++ ")")
    else binaryScan raw rest

/-- The general enum loop (lines 324-330): return the display for the
first matching option that has an `en_title` or `title` key; options that
match but carry neither key are skipped (the loop body has no `else`). -/
def generalScan (raw : Json) : List Json → Option String
  | [] => none
  | d :: rest =>
    let kvs := jObjKvs d
    if pyStr ((objGet kvs "value").getD .null) == pyStr raw then
      match objGet kvs "en_title" with
      | some t => some (pyStr t ++ " (" ++ pyStr raw ++ ")")
      | none =>
        match objGet kvs "title" with
        | some t => some (pyStr t ++ " (" ++ pyStr raw ++ ")")
        | none => generalScan raw rest
    else generalScan raw rest

/-- Is this deserialized value a Python dict? -/
def isObjJ : Json → Bool
  | .obj _ => true
  | _ => false

/-- The enum-like branch of `_get_friendly_value` (definition is a list
whose entries are all dicts, lines 307-333).  Always returns. -/
def enumBranch (raw : Json) (ds : List Json) : String :=
  let binCond := ds.length == 2
    && ds.any (fun d => "0" == pyStr ((objGet (jObjKvs d) "value").getD .null))
    && ds.any (fun d => "1" == pyStr ((objGet (jObjKvs d) "value").getD .null))
  match (if binCond then binaryScan raw ds else none) with
  | some r => r
  | none =>
    match generalScan raw ds with
    | some r => r
    | none => pyStr raw

/-- The unit-extraction loop (lines 336-339): iterate over the parsed
definition, remembering the `value` of the last dict entry whose `title`
equals the Chinese or English unit marker.  Iterating a string yields its
characters and iterating a dict yields its keys (never dicts, so the
accumulator stays empty); iterating a number, boolean or `None` raises
`TypeError`. -/
def unitScan : Json → Except Unit Json
  | .arr ds =>
    .ok (ds.foldl
      (fun u d =>
        match d with
        | .obj kvs =>
          let title := (objGet kvs "title").getD .null
          if pyEq title (.str "单位") || pyEq title (.str "unit") then
            (objGet kvs "value").getD (.str "")
          else u
        | _ => u)
      (.str ""))
  | .str _ => .ok (.str "")
  | .obj _ => .ok (.str "")
  | _ => .error ()

/-- The range/unit branch of `_get_friendly_value` (lines 336-350),
taken when the parsed definition is not a list of dicts. -/
def unitBranch (raw unikey defn : Json) : Except Unit String := do
  let unit ← unitScan defn
  if pyTruthy unit then
    if pyEq unikey (.str "total_power") then
      pure (pyStr raw ++ " " ++ pyStr unit)
    else if (["dianya", "cm_voltage", "jz_voltage", "hf_out_voltage"].any
        (fun k => pyEq unikey (.str k))) then
      pure (pyStr raw ++ " " ++ pyStr unit)
    else if pyEq unikey (.str "temperature") then
      pure (pyStr raw ++ " °C")
    else
      pure (pyStr raw ++ " " ++ pyStr unit)
  else
    pure (pyStr raw)

/-- The body of `_get_friendly_value` inside the outer `try` (lines
291-353).  An `item` is a property record: a dict with optional `value`,
`definition` and `unikey` entries.  `.error ()` marks the only raising
statement in the body, the `for` over a non-iterable definition. -/
def friendlyCore (parse : String → Option Json)
    (item : List (String × Json)) : Except Unit String :=
  let raw_value : Json := (objGet item "value").getD .null
  let definition_str : Json := (objGet item "definition").getD (.str "")
  let unikey : Json := (objGet item "unikey").getD (.str "")
  if !pyTruthy definition_str then .ok (pyStr raw_value)
  else
    match pyLoads parse definition_str with
    | none => .ok (pyStr raw_value)
    | some definition =>
      match definition with
      | .arr ds =>
        if ds.all isObjJ then .ok (enumBranch raw_value ds)
        else unitBranch raw_value unikey (.arr ds)
      | d => unitBranch raw_value unikey d

/-- `_get_friendly_value` (lines 281-357): the body wrapped in the outer
`try`/`except` that falls back to `str(item.get("value", ""))`. -/
def friendly (parse : String → Option Json)
    (item : List (String × Json)) : String :=
  match friendlyCore parse item with
  | .ok s => s
  | .error _ => pyStr ((objGet item "value").getD (.str ""))

/-! ## The protocol session (client.py lines 58-203) -/

/-- The mutable state of a `SolarControllerClient`: the MAC address fixed
at construction, the websocket handle (`some b` = a handle is held, `b` =
it is still open), the session identifier `client_id` and the `connected`
flag. -/
structure Session where
  mac : String
  websocket : Option Bool
  client_id : Option Json
  connected : Bool

/-- A freshly constructed client (lines 61-72). -/
def mkSession (mac : String) : Session :=
  { mac := mac, websocket := none, client_id := none, connected := false }

/-- What the environment did during one `connect` attempt: either some
exception was raised (establishment timeout, receive timeout or transport
error), or the connection opened and a handshake frame was received. -/
inductive AttemptOutcome where
  | err
  | recv (payload : String)

/-- The handshake acceptance test of lines 107-111: the frame must parse
as JSON, `json.loads` must yield a dict (`.get` on anything else raises,
which the `except` catches), `code` must equal `200` and a `client_id`
key must be present.  Returns the session identifier on success. -/
def handshakeCheck (parse : String → Option Json) (payload : String) :
    Option Json :=
  match parse payload with
  | none => none
  | some (.obj kvs) =>
    if pyEq ((objGet kvs "code").getD .null) (.int 200)
        && (objGet kvs "client_id").isSome then
      objGet kvs "client_id"
    else none
  | some _ => none

/-- One iteration of the `connect` retry loop (lines 88-131), up to but
not including the final assignment of `client_id`/`connected`: returns
the accepted session identifier (if any) and the state after the
attempt.  Every failure path (timeout, transport error, unparsable or
invalid handshake) closes and drops the websocket handle. -/
def connectAttempt (parse : String → Option Json) (s : Session)
    (o : AttemptOutcome) : Option Json × Session :=
  match o with
  | .err => (none, { s with websocket := none })
  | .recv payload =>
    match handshakeCheck parse payload with
    | some cid => (some cid, { s with websocket := some true })
    | none => (none, { s with websocket := none })

/-- The `connect` retry loop from attempt number `attempt` with
`remaining` attempts left: returns the boolean result, the final state
and the number of attempts actually made. -/
def connectFrom (parse : String → Option Json)
    (oracle : Nat → AttemptOutcome) :
    Nat → Nat → Session → Bool × Session × Nat
  | _, 0, s => (false, s, 0)
  | attempt, remaining + 1, s =>
    match connectAttempt parse s (oracle attempt) with
    | (some cid, s1) =>
      (true, { s1 with client_id := some cid, connected := true }, 1)
    | (none, s1) =>
      let r := connectFrom parse oracle (attempt + 1) remaining s1
      (r.1, r.2.1, r.2.2 + 1)

/-- `connect(timeout, max_attempts)` (lines 74-143).  `oracle i` is what
the environment did during attempt number `i` (numbered from 1). -/
def connect (parse : String → Option Json) (oracle : Nat → AttemptOutcome)
    (max_attempts : Nat) (s : Session) : Bool × Session × Nat :=
  connectFrom parse oracle 1 max_attempts s

/-- Does this attempt outcome fail the handshake acceptance test (an
exception, unparsable JSON, a non-dict frame, a code other than 200, or
a missing `client_id`)? -/
def attemptRejected (parse : String → Option Json) : AttemptOutcome → Bool
  | .err => true
  | .recv payload => (handshakeCheck parse payload).isNone

/-- `disconnect()` (lines 145-155).  `closeErr` records whether
`websocket.close()` raised; the exception is swallowed, so the resulting
state does not depend on it.  When no websocket handle is held the whole
body is skipped, including the `finally` that clears the flags. -/
def disconnect (closeErr : Bool) (s : Session) : Session :=
  match s.websocket with
  | none => s
  | some _ =>
    let _ := closeErr
    { s with websocket := some false, connected := false, client_id := none }

/-- The errors `send_command` can raise (line 172 and lines 200-203). -/
inductive CmdError where
  | notConnected
  | cmdTimeout
  | cmdError

/-- What the transport did during one `send_command` call: the send
raised, the receive timed out, the receive raised some other error, or a
reply frame arrived. -/
inductive NetOutcome where
  | sendErr
  | recvTimeout
  | recvErr
  | reply (payload : String)

/-- A transport interaction performed by `send_command`: a serialized
command envelope going out, or an attempt to receive a reply. -/
inductive IOEvent where
  | sent (env : List (String × Json))
  | recvd

/-- The command envelope of lines 175-181: start from the `Action` entry,
merge in `params` (`if params:` makes the empty dict a no-op, matching
the `None` default), then add the MAC address only if absent. -/
def buildCommand (action : String) (params : List (String × Json))
    (mac : String) : List (String × Json) :=
  let c := dictUpdate [("Action", .str action)] params
  if c.any (fun p => p.1 == "mac") then c else c ++ [("mac", .str mac)]

/-- `send_command(action, params)` (lines 157-203): returns the parsed
response or the raised error, together with the transport interactions
performed. -/
def send_command (parse : String → Option Json) (s : Session)
    (action : String) (params : List (String × Json)) (net : NetOutcome) :
    Except CmdError Json × List IOEvent :=
  if !s.connected || s.websocket.isNone then (.error .notConnected, [])
  else
    let env := buildCommand action params s.mac
    match net with
    | .sendErr => (.error .cmdError, [.sent env])
    | .recvTimeout => (.error .cmdTimeout, [.sent env, .recvd])
    | .recvErr => (.error .cmdError, [.sent env, .recvd])
    | .reply payload =>
      match parse payload with
      | none => (.error .cmdError, [.sent env, .recvd])
      | some j => (.ok j, [.sent env, .recvd])

/-- The response check of lines 376-381: `response.get("code") == 200`
(`.get` on a non-dict raises, which the enclosing `except` turns into
`False`). -/
def respCode200 : Json → Bool
  | .obj kvs => pyEq ((objGet kvs "code").getD .null) (.int 200)
  | _ => false

/-- `set_charge_mode(mode)` (lines 359-385): issue `setPropertyData` for
property id 35 and report whether the response code is 200; every raised
error becomes `false`. -/
def set_charge_mode (parse : String → Option Json) (s : Session)
    (mode : Int) (net : NetOutcome) : Bool × List IOEvent :=
  match send_command parse s "setPropertyData"
      [("id", .int 35), ("value", .int mode)] net with
  | (.error _, tr) => (false, tr)
  | (.ok j, tr) => (respCode200 j, tr)

/-- Did the `set_charge_mode` exchange yield a parsed response whose
code is 200?  (The right-hand side of the claimed if-and-only-if.) -/
def netReplyOk (parse : String → Option Json) : NetOutcome → Bool
  | .reply payload =>
    match parse payload with
    | some j => respCode200 j
    | none => false
  | _ => false

/-! ## `get_all_machine_info` (client.py lines 205-230) -/

/-- `"data" in info` for an arbitrary deserialized response: key test on
a dict, membership on a list, substring test on a string, `TypeError` on
anything else. -/
def hasKeyData : Json → Except Unit Bool
  | .obj kvs => .ok (kvs.any (fun p => p.1 == "data"))
  | .arr xs => .ok (xs.any (fun x => pyEq x (.str "data")))
  | .str s => .ok (decide ((s.splitOn "data").length ≥ 2))
  | _ => .error ()

/-- `info["data"]`: dict lookup; indexing anything else with a string
raises. -/
def getDataItem : Json → Except Unit Json
  | .obj kvs =>
    match objGet kvs "data" with
    | some v => .ok v
    | none => .error ()
  | _ => .error ()

/-- `list.extend(x)`: the elements `x` contributes, or `TypeError` when
`x` is not iterable (a string contributes its characters, a dict its
keys). -/
def pyIterElems : Json → Except Unit (List Json)
  | .arr xs => .ok xs
  | .str s => .ok (s.data.map (fun c => Json.str (String.mk [c])))
  | .obj kvs => .ok (kvs.map (fun p => Json.str p.1))
  | _ => .error ()

/-- Lines 219-222 for one response: extend `acc` with the `data` payload
if a `data` key is present. -/
def extendData (acc : List Json) (info : Json) : Except Unit (List Json) := do
  let h ← hasKeyData info
  if h then do
    let d ← getDataItem info
    let xs ← pyIterElems d
    pure (acc ++ xs)
  else
    pure acc

/-- The sort key of line 225, `x.get("property_id", 0)`; calling `.get`
on a non-dict raises. -/
def pidKeyE : Json → Except Unit Json
  | .obj kvs => .ok ((objGet kvs "property_id").getD (.int 0))
  | _ => .error ()

/-- Compute all sort keys, left to right (Python computes every key
before comparing any). -/
def pidKeys : List Json → Except Unit (List Json)
  | [] => .ok []
  | x :: xs => do
    let k ← pidKeyE x
    let ks ← pidKeys xs
    pure (k :: ks)

/-- Keys that Python orders like integers (`bool` is an `int`). -/
def intLikeKey : Json → Bool
  | .int _ => true
  | .bool _ => true
  | _ => false

/-- String sort keys. -/
def strLikeKey : Json → Bool
  | .str _ => true
  | _ => false

/-- The integer value of a record's sort key (0 when `property_id` is
absent, as in `x.get("property_id", 0)`). -/
def pidInt : Json → Int
  | .obj kvs =>
    (match (objGet kvs "property_id").getD (.int 0) with
     | .int n => n
     | .bool b => if b then 1 else 0
     | _ => 0)
  | _ => 0

/-- The string value of a record's sort key. -/
def pidStr : Json → String
  | .obj kvs =>
    (match (objGet kvs "property_id").getD (.int 0) with
     | .str s => s
     | _ => "")
  | _ => ""

/-- Stable insertion into a list sorted by `pidInt`: the new element goes
in front of the first element with a key not smaller than its own. -/
def insPid (x : Json) : List Json → List Json
  | [] => [x]
  | y :: ys => if pidInt x ≤ pidInt y then x :: y :: ys else y :: insPid x ys

/-- Stable sort by `pidInt` (the behaviour of `list.sort(key=...)` on
integer keys; Python's Timsort is stable, and a stable sort by a fixed
key is unique). -/
def sortPid : List Json → List Json
  | [] => []
  | x :: xs => insPid x (sortPid xs)

/-- Stable insertion by the string key. -/
def insPidStr (x : Json) : List Json → List Json
  | [] => [x]
  | y :: ys => if pidStr x ≤ pidStr y then x :: y :: ys else y :: insPidStr x ys

/-- Stable sort by the string key. -/
def sortPidStr : List Json → List Json
  | [] => []
  | x :: xs => insPidStr x (sortPidStr xs)

/-- `combined_data.sort(key=lambda x: x.get("property_id", 0))` (line
225): computing a key may raise; comparing an integer key with a string
key raises `TypeError` (a list of at most one element is never compared);
homogeneous integer or string keys sort stably.  Ordering of container
keys (a list or dict stored under `property_id`) is not modelled and is
treated as raising. -/
def pySortByPid (l : List Json) : Except Unit (List Json) := do
  let ks ← pidKeys l
  if ks.all intLikeKey then pure (sortPid l)
  else if ks.all strLikeKey then pure (sortPidStr l)
  else if l.length ≤ 1 then pure l
  else .error ()

/-- The body of `get_all_machine_info` inside its `try` (lines 212-227),
taking the outcomes of the two `send_command` calls.  A raising first
call propagates before the second call's outcome is consulted, matching
the sequencing of lines 214-215. -/
def gamiCore (r1 r2 : Except CmdError Json) : Except Unit (List Json) := do
  let i1 ← match r1 with
    | .ok j => Except.ok j
    | .error _ => Except.error ()
  let i2 ← match r2 with
    | .ok j => Except.ok j
    | .error _ => Except.error ()
  let c1 ← extendData [] i1
  let c2 ← extendData c1 i2
  pySortByPid c2

/-- `get_all_machine_info()` (lines 205-230): any exception is logged
and degraded to the empty list. -/
def get_all_machine_info (r1 r2 : Except CmdError Json) : List Json :=
  match gamiCore r1 r2 with
  | .ok l => l
  | .error _ => []

/-- A well-formed property record for the merge: a dict whose
`property_id` is absent or an integer. -/
def isRecord : Json → Bool
  | .obj kvs =>
    (match objGet kvs "property_id" with
     | none => true
     | some (.int _) => true
     | some _ => false)
  | _ => false

/-! ## Lemmas about the stable sort -/

@[simp] theorem exceptOkBind {ε α β : Type} (a : α) (f : α → Except ε β) :
    (Except.ok a >>= f : Except ε β) = f a := rfl

@[simp] theorem exceptErrBind {ε α β : Type} (e : ε) (f : α → Except ε β) :
    (Except.error e >>= f : Except ε β) = Except.error e := rfl

@[simp] theorem exceptMapOk {ε α β : Type} (f : α → β) (a : α) :
    (f <$> (Except.ok a : Except ε α)) = Except.ok (f a) := rfl

@[simp] theorem exceptPureEq {ε α : Type} (a : α) :
    (pure a : Except ε α) = Except.ok a := rfl

theorem mem_insPid (z x : Json) (l : List Json) :
    z ∈ insPid x l ↔ z = x ∨ z ∈ l := by
  induction l with
  | nil => simp [insPid]
  | cons y ys ih =>
    simp only [insPid]
    split
    · simp [List.mem_cons]
    · simp only [List.mem_cons, ih]
      tauto

theorem insPid_perm (x : Json) (l : List Json) : (insPid x l).Perm (x :: l) := by
  induction l with
  | nil => simp [insPid]
  | cons y ys ih =>
    simp only [insPid]
    split
    · exact List.Perm.refl _
    · exact (ih.cons y).trans (List.Perm.swap x y ys)

theorem sortPid_perm (l : List Json) : (sortPid l).Perm l := by
  induction l with
  | nil => simp [sortPid]
  | cons x xs ih => exact (insPid_perm x (sortPid xs)).trans (ih.cons x)

theorem insPid_sorted (x : Json) (l : List Json)
    (h : l.Pairwise (fun a b => pidInt a ≤ pidInt b)) :
    (insPid x l).Pairwise (fun a b => pidInt a ≤ pidInt b) := by
  induction l with
  | nil => simp [insPid]
  | cons y ys ih =>
    rw [List.pairwise_cons] at h
    obtain ⟨hy, hys⟩ := h
    simp only [insPid]
    by_cases h1 : pidInt x ≤ pidInt y
    · rw [if_pos h1, List.pairwise_cons]
      refine ⟨?_, ?_⟩
      · intro z hz
        rcases List.mem_cons.mp hz with rfl | hz
        · exact h1
        · exact le_trans h1 (hy z hz)
      · rw [List.pairwise_cons]
        exact ⟨hy, hys⟩
    · rw [if_neg h1, List.pairwise_cons]
      refine ⟨?_, ih hys⟩
      intro z hz
      rcases (mem_insPid z x ys).mp hz with rfl | hz
      · omega
      · exact hy z hz

theorem sortPid_sorted (l : List Json) :
    (sortPid l).Pairwise (fun a b => pidInt a ≤ pidInt b) := by
  induction l with
  | nil => simp [sortPid]
  | cons x xs ih => exact insPid_sorted x (sortPid xs) ih

theorem filter_insPid (x : Json) (l : List Json) (k : Int) :
    (insPid x l).filter (fun z => pidInt z == k) =
      if pidInt x = k then x :: l.filter (fun z => pidInt z == k)
      else l.filter (fun z => pidInt z == k) := by
  induction l with
  | nil =>
    by_cases h : pidInt x = k <;> simp [insPid, List.filter_cons, beq_iff_eq, h]
  | cons y ys ih =>
    by_cases h1 : pidInt x ≤ pidInt y
    · simp only [insPid, if_pos h1]
      by_cases h : pidInt x = k <;> simp [List.filter_cons, beq_iff_eq, h]
    · simp only [insPid, if_neg h1]
      by_cases h : pidInt x = k
      · have hy : ¬ pidInt y = k := by omega
        simp [List.filter_cons, beq_iff_eq, ih, h, hy]
      · simp [List.filter_cons, beq_iff_eq, ih, h]

theorem sortPid_stable (l : List Json) (k : Int) :
    (sortPid l).filter (fun z => pidInt z == k) =
      l.filter (fun z => pidInt z == k) := by
  induction l with
  | nil => simp [sortPid]
  | cons x xs ih =>
    by_cases h : pidInt x = k <;>
      simp [sortPid, filter_insPid, List.filter_cons, beq_iff_eq, h, ih]

/-! ## Lemmas for evaluating `get_all_machine_info` -/

theorem objGet_any {kvs : List (String × Json)} {k : String} {v : Json}
    (h : objGet kvs k = some v) : kvs.any (fun p => p.1 == k) = true := by
  induction kvs with
  | nil => simp [objGet] at h
  | cons p rest ih =>
    rw [objGet] at h
    by_cases hp : p.1 == k
    · simp [List.any_cons, hp]
    · rw [if_neg hp] at h
      simp [List.any_cons, hp, ih h]

theorem pidKeys_record {l : List Json} (h : l.all isRecord = true) :
    ∃ ks, pidKeys l = .ok ks ∧ ks.all intLikeKey = true := by
  induction l with
  | nil => exact ⟨[], rfl, rfl⟩
  | cons x xs ih =>
    rw [List.all_cons, Bool.and_eq_true] at h
    obtain ⟨hx, hxs⟩ := h
    obtain ⟨ks, hks, hall⟩ := ih hxs
    cases x with
    | obj kvs =>
      cases hpid : objGet kvs "property_id" with
      | none =>
        refine ⟨.int 0 :: ks, ?_, ?_⟩
        · simp [pidKeys, pidKeyE, hpid, hks, Except.bind]
        · simp [List.all_cons, intLikeKey, hall]
      | some v =>
        cases v with
        | int n =>
          refine ⟨.int n :: ks, ?_, ?_⟩
          · simp [pidKeys, pidKeyE, hpid, hks, Except.bind]
          · simp [List.all_cons, intLikeKey, hall]
        | null => simp [isRecord, hpid] at hx
        | bool b => simp [isRecord, hpid] at hx
        | str s => simp [isRecord, hpid] at hx
        | arr a => simp [isRecord, hpid] at hx
        | obj o => simp [isRecord, hpid] at hx
    | null => simp [isRecord] at hx
    | bool b => simp [isRecord] at hx
    | int n => simp [isRecord] at hx
    | str s => simp [isRecord] at hx
    | arr a => simp [isRecord] at hx

theorem extendData_obj {o : List (String × Json)} {xs acc : List Json}
    (h : objGet o "data" = some (.arr xs)) :
    extendData acc (.obj o) = .ok (acc ++ xs) := by
  simp [extendData, hasKeyData, objGet_any h, getDataItem, h, pyIterElems,
    Except.bind]

theorem gami_eval {o1 o2 : List (String × Json)} {xs1 xs2 : List Json}
    (h1 : objGet o1 "data" = some (.arr xs1))
    (h2 : objGet o2 "data" = some (.arr xs2))
    (hr : (xs1 ++ xs2).all isRecord = true) :
    get_all_machine_info (.ok (.obj o1)) (.ok (.obj o2)) =
      sortPid (xs1 ++ xs2) := by
  obtain ⟨ks, hks, hall⟩ := pidKeys_record hr
  have hnil : extendData [] (.obj o1) = .ok xs1 := by
    simpa using @extendData_obj o1 xs1 [] h1
  simp only [get_all_machine_info, gamiCore, exceptOkBind, hnil,
    extendData_obj h2, pySortByPid, hks]
  rw [if_pos hall]
  rfl

/-! ## Lemmas for the connect retry loop -/

theorem connectAttempt_rejected (parse : String → Option Json) (s : Session)
    (o : AttemptOutcome) (h : attemptRejected parse o = true) :
    connectAttempt parse s o = (none, { s with websocket := none }) := by
  cases o with
  | err => rfl
  | recv payload =>
    simp only [attemptRejected, Option.isNone_iff_eq_none] at h
    simp [connectAttempt, h]

theorem connectFrom_allFail (parse : String → Option Json)
    (oracle : Nat → AttemptOutcome) (remaining : Nat) :
    ∀ (attempt : Nat) (s : Session),
      s.connected = false →
      (∀ i, attempt ≤ i → i < attempt + remaining →
        attemptRejected parse (oracle i) = true) →
      1 ≤ remaining →
      connectFrom parse oracle attempt remaining s =
        (false,
         { mac := s.mac, websocket := none, client_id := s.client_id,
           connected := false },
         remaining) := by
  induction remaining with
  | zero => intro attempt s _ _ h1; omega
  | succ r ih =>
    intro attempt s hc hrej _
    have hatt : attemptRejected parse (oracle attempt) = true :=
      hrej attempt le_rfl (by omega)
    rw [connectFrom, connectAttempt_rejected parse s (oracle attempt) hatt]
    cases r with
    | zero =>
      simp only [connectFrom]
      cases s with
      | mk mac ws cid conn =>
        simp only at hc
        subst hc
        rfl
    | succ r2 =>
      have step := ih (attempt + 1) { s with websocket := none } hc
        (fun i hi1 hi2 => hrej i (by omega) (by omega)) (by omega)
      simp only [step]

/-! ## Concrete example inputs -/

/-- The two descriptors of a boolean-style definition. -/
def bin0Kvs : List (String × Json) := [("value", .str "0"), ("en_title", .str "OFF")]

/-- The ON descriptor of a boolean-style definition. -/
def bin1Kvs : List (String × Json) := [("value", .str "1"), ("en_title", .str "ON")]

/-- A stand-in for `json.loads` on the concrete definition texts used in
the examples (the texts themselves are opaque keys; only the parsed
values matter to the client). -/
def exParse : String → Option Json := fun s =>
  if s = "tempdef" then
    some (.arr [.obj [("title", .str "unit"), ("value", .str "C")]])
  else if s = "tempdefmixed" then
    some (.arr [.obj [("title", .str "unit"), ("value", .str "C")], .int 0])
  else if s = "bindef" then some (.arr [.obj bin0Kvs, .obj bin1Kvs])
  else if s = "intdef" then some (.int 3)
  else if s = "ok200" then some (.obj [("code", .int 200)])
  else if s = "ok500" then some (.obj [("code", .int 500)])
  else none

/-- A temperature record whose definition is the single-unit descriptor
list of the spec's example. -/
def tempItem : List (String × Json) :=
  [("property_id", .int 5), ("unikey", .str "temperature"),
   ("value", .int 25), ("definition", .str "tempdef")]

/-- The same record with a non-dict element appended to the definition
list, which sends the interpreter into the range/unit branch. -/
def tempItemMixed : List (String × Json) :=
  [("property_id", .int 5), ("unikey", .str "temperature"),
   ("value", .int 25), ("definition", .str "tempdefmixed")]

/-- A boolean-style record with raw value 1. -/
def exItemOn : List (String × Json) :=
  [("value", .int 1), ("definition", .str "bindef")]

/-- A boolean-style record with raw value 0. -/
def exItemOff : List (String × Json) :=
  [("value", .int 0), ("definition", .str "bindef")]

/-- A record whose definition text is not valid JSON. -/
def exItemBadDef : List (String × Json) :=
  [("value", .str "xyz"), ("definition", .str "garbage")]

/-- A record with no `value` whose definition parses to a bare number,
so that iterating over it raises `TypeError`. -/
def exItemIntDef : List (String × Json) := [("definition", .str "intdef")]

/-- Property record with id 1. -/
def exRec1 : Json := .obj [("property_id", .int 1), ("unikey", .str "a"), ("value", .int 0)]

/-- Property record with id 2. -/
def exRec2 : Json := .obj [("property_id", .int 2), ("unikey", .str "b"), ("value", .int 1)]

/-- An info response carrying only the id-2 record. -/
def exKvs21 : List (String × Json) := [("code", .int 200), ("data", .arr [exRec2])]

/-- An info response carrying only the id-1 record. -/
def exKvs12 : List (String × Json) := [("code", .int 200), ("data", .arr [exRec1])]

/-- A session holding a live connection. -/
def connSession : Session :=
  { mac := "AA:BB", websocket := some true, client_id := some (.str "c1"),
    connected := true }

/-- A session with the `connected` flag set but no transport handle
(no state reachable by the client code has this shape, but the claim
quantifies over every session state). -/
def badSession : Session :=
  { mac := "m", websocket := none, client_id := some (.str "id"),
    connected := true }

/-! ## Claims -/

/-- Claim C1, counterexample.  The claim says that interpreting raw value
25 under property key "temperature" with definition
`[ dict with title "unit" and value "C" ]` yields a display containing
"25" and a degree-Celsius marker.  In the code a definition that is a
list of dicts is consumed by the enum branch, whose no-match fallback
returns the bare string form of the raw value, so the display is exactly
"25": no character of it is the letter C or the degree sign, hence it
carries no Celsius marker. -/
theorem temperature_unit_no_celsius :
    friendly exParse tempItem = "25" ∧
      'C' ∉ "25".data ∧ '°' ∉ "25".data :=
  ⟨rfl, by decide, by decide⟩

/-- Claim C1, amended.  The temperature special case of the unit branch
is unreachable for a definition that is a list consisting only of dicts:
there the enum branch answers and the display is exactly the string form
of the raw value, "25", with no unit appended.  The degree-Celsius
special case fires only when the definition is not such a list — for
example the same unit descriptor list with a stray non-dict element
yields "25 °C". -/
theorem temperature_unit_amended :
    friendly exParse tempItem = "25" ∧
      friendly exParse tempItemMixed = "25 °C" :=
  ⟨rfl, rfl⟩

/-- Claim C4: on a session whose `connected` flag is false or which holds
no websocket handle, `send_command` fails with the not-connected error
and performs no transport interaction at all: nothing is serialized or
sent, and no receive is attempted. -/
theorem send_command_not_connected (parse : String → Option Json)
    (s : Session) (action : String) (params : List (String × Json))
    (net : NetOutcome)
    (h : s.connected = false ∨ s.websocket = none) :
    send_command parse s action params net = (.error .notConnected, []) := by
  rcases h with h | h <;> simp [send_command, h]

/-- Witness for claim C4 at a freshly constructed session. -/
theorem send_command_not_connected_witness :
    send_command exParse (mkSession "m") "getMachinInfoOne" [] .recvTimeout =
      (.error .notConnected, []) :=
  send_command_not_connected exParse (mkSession "m") "getMachinInfoOne" []
    .recvTimeout (Or.inl rfl)

/-- Claim C7: if either of the two info queries raised, the merge in
`get_all_machine_info` is skipped and the result is the empty list —
never a partial list from the surviving query, and never a propagated
exception (the function totalizes to a list). -/
theorem get_all_machine_info_error_empty :
    ∀ (e : CmdError) (r : Except CmdError Json),
      get_all_machine_info (.error e) r = [] ∧
      get_all_machine_info r (.error e) = [] := by
  intro e r
  refine ⟨rfl, ?_⟩
  cases r with
  | error e2 => rfl
  | ok j => rfl

/-- Claim C8: a non-empty definition blob that fails to parse as JSON
makes the interpreter return exactly the string form of the raw value,
for every raw value. -/
theorem friendly_unparsable_definition (parse : String → Option Json)
    (item : List (String × Json)) (s : String)
    (h1 : objGet item "definition" = some (.str s))
    (h2 : s ≠ "") (h3 : parse s = none) :
    friendly parse item = pyStr ((objGet item "value").getD .null) := by
  have ht : pyTruthy (.str s) = true := by
    simp [pyTruthy, h2]
  simp [friendly, friendlyCore, h1, ht, pyLoads, h3]

/-- Witness for claim C8: an unparsable definition text next to the raw
string value "xyz" displays as "xyz". -/
theorem friendly_unparsable_definition_witness :
    friendly exParse exItemBadDef = "xyz" := by
  have h := friendly_unparsable_definition exParse exItemBadDef "garbage"
    rfl (by decide) rfl
  exact h.trans rfl

/-- Claim C9, counterexample.  The claim says `disconnect` clears the
session identifier and connected flag for every session state; but the
whole body of `disconnect` is guarded by `if self.websocket:` — on a
state with no websocket handle it is a no-op and both the flag and the
identifier survive. -/
theorem disconnect_no_handle_counterexample :
    (disconnect false badSession).connected = true ∧
      (disconnect false badSession).client_id = some (.str "id") :=
  ⟨rfl, rfl⟩

/-- Claim C9, amended: `disconnect` is idempotent for every session
state and swallows close errors (the resulting state does not depend on
whether `close()` raised); whenever a websocket handle is present — in
particular in every state the client can actually reach with the
connected flag set — one call clears the connected flag and the session
identifier, and a second call leaves the state identical. -/
theorem disconnect_idempotent_amended (s : Session) (e e2 : Bool) :
    disconnect e2 (disconnect e s) = disconnect e s ∧
      disconnect e s = disconnect e2 s ∧
      (s.websocket ≠ none →
        (disconnect e s).connected = false ∧
          (disconnect e s).client_id = none) := by
  cases hw : s.websocket with
  | none => exact ⟨by simp [disconnect, hw], by simp [disconnect, hw],
      fun h => absurd rfl h⟩

  | some b =>
    refine ⟨?_, by simp [disconnect, hw], fun _ => ⟨by simp [disconnect, hw],
      by simp [disconnect, hw]⟩⟩
    simp [disconnect, hw]

/-- Witness for the amended claim C9 on a live session. -/
theorem disconnect_idempotent_amended_witness :
    disconnect false (disconnect true connSession) =
        disconnect true connSession ∧
      (disconnect true connSession).connected = false ∧
      (disconnect true connSession).client_id = none := by
  have h := disconnect_idempotent_amended connSession true false
  exact ⟨h.1, (h.2.2 (by simp [connSession])).1, (h.2.2 (by simp [connSession])).2⟩

/-- Claim C10: the interpreter is total.  `friendlyCore` is the body of
`_get_friendly_value` with its one raising statement made explicit; the
wrapper `friendly` returns the body's string whenever the body does not
raise, and otherwise falls back to the string form of the record's
`value` — which is the empty string when `value` is absent, since the
fallback reads `item.get("value", "")`.  In every case a string is
returned and no exception escapes. -/
theorem friendly_total_fallback (parse : String → Option Json)
    (item : List (String × Json)) :
    (∀ s, friendlyCore parse item = .ok s → friendly parse item = s) ∧
    (∀ e, friendlyCore parse item = .error e →
      friendly parse item = pyStr ((objGet item "value").getD (.str ""))) := by
  constructor
  · intro s h
    simp [friendly, h]
  · intro e h
    simp [friendly, h]

/-- Witness for claim C10: a record with no `value` entry whose
definition parses to a bare number (iterating it raises `TypeError`
inside the body) displays as the empty string. -/
theorem friendly_total_fallback_witness :
    friendly exParse exItemIntDef = "" := by
  have h := (friendly_total_fallback exParse exItemIntDef).2 () rfl
  exact h.trans rfl

/-- Claim C2: for two info responses carrying `data` payloads of property
records (dicts whose `property_id` is an integer or absent),
`get_all_machine_info` returns a permutation of the concatenation of the
two payloads, in ascending `property_id` order, and stably: the records
with any fixed property id appear exactly in their concatenation order.
In particular merging a payload holding only the id-2 record with one
holding only the id-1 record yields the records ordered id 1 then id 2. -/
theorem get_all_machine_info_sorted_merge :
    (∀ (o1 o2 : List (String × Json)) (xs1 xs2 : List Json),
      objGet o1 "data" = some (.arr xs1) →
      objGet o2 "data" = some (.arr xs2) →
      (xs1 ++ xs2).all isRecord = true →
      (get_all_machine_info (.ok (.obj o1)) (.ok (.obj o2))).Perm (xs1 ++ xs2) ∧
      (get_all_machine_info (.ok (.obj o1)) (.ok (.obj o2))).Pairwise
        (fun a b => pidInt a ≤ pidInt b) ∧
      (∀ k : Int,
        (get_all_machine_info (.ok (.obj o1)) (.ok (.obj o2))).filter
            (fun z => pidInt z == k) =
          (xs1 ++ xs2).filter (fun z => pidInt z == k))) ∧
    get_all_machine_info (.ok (.obj exKvs21)) (.ok (.obj exKvs12)) =
      [exRec1, exRec2] := by
  constructor
  · intro o1 o2 xs1 xs2 h1 h2 hr
    rw [gami_eval h1 h2 hr]
    exact ⟨sortPid_perm _, sortPid_sorted _, fun k => sortPid_stable _ k⟩
  · rfl

/-- Witness for claim C2: the general statement applied to the concrete
pair of single-record responses with ids 2 and 1. -/
theorem get_all_machine_info_sorted_merge_witness :
    (get_all_machine_info (.ok (.obj exKvs21)) (.ok (.obj exKvs12))).Perm
        ([exRec2] ++ [exRec1]) ∧
      (get_all_machine_info (.ok (.obj exKvs21)) (.ok (.obj exKvs12))).Pairwise
        (fun a b => pidInt a ≤ pidInt b) ∧
      (∀ k : Int,
        (get_all_machine_info (.ok (.obj exKvs21)) (.ok (.obj exKvs12))).filter
            (fun z => pidInt z == k) =
          ([exRec2] ++ [exRec1]).filter (fun z => pidInt z == k)) :=
  get_all_machine_info_sorted_merge.1 exKvs21 exKvs12 [exRec2] [exRec1]
    rfl rfl rfl

/-- Claim C3: starting from a not-connected session, if every attempt is
rejected (exception, unparsable handshake, code other than 200, or no
`client_id` field), `connect` makes exactly `max_attempts` attempts,
returns failure, and leaves the session not connected with no websocket
handle (the session identifier is untouched by the failure paths). -/
theorem connect_all_attempts_fail (parse : String → Option Json)
    (oracle : Nat → AttemptOutcome) (max_attempts : Nat) (s : Session)
    (hc : s.connected = false) (hmax : 1 ≤ max_attempts)
    (hrej : ∀ i, 1 ≤ i → i ≤ max_attempts →
      attemptRejected parse (oracle i) = true) :
    connect parse oracle max_attempts s =
      (false,
       { mac := s.mac, websocket := none, client_id := s.client_id,
         connected := false },
       max_attempts) :=
  connectFrom_allFail parse oracle max_attempts 1 s hc
    (fun i hi1 hi2 => hrej i hi1 (by omega)) hmax

/-- Witness for claim C3: three attempts that all receive an unparsable
handshake frame leave a fresh session unconnected after exactly three
attempts. -/
theorem connect_all_attempts_fail_witness :
    connect exParse (fun _ => .recv "garbage") 3 (mkSession "m") =
      (false,
       { mac := "m", websocket := none, client_id := none,
         connected := false },
       3) :=
  connect_all_attempts_fail exParse (fun _ => .recv "garbage") 3
    (mkSession "m") rfl (by omega) (fun i _ _ => rfl)

/-- Claim C5: on a definition list of exactly two descriptors whose
stringified values are "0" and "1" in either order, and a raw value
whose string form is "0" or "1", the interpreter displays the matching
descriptor's status followed by the parenthesised raw value, where the
status is the descriptor's truthy `en_title`, else its truthy `title`,
else the literal "ON" when the raw value equals 1 or "1" and "OFF"
otherwise; in particular raw 1 with the OFF/ON example definition gives
"ON (1)" and raw 0 gives "OFF (0)". -/
theorem friendly_binary_status :
    (∀ (parse : String → Option Json) (item da db : List (String × Json))
        (s : String) (raw : Json),
      objGet item "value" = some raw →
      objGet item "definition" = some (.str s) →
      s ≠ "" →
      parse s = some (.arr [.obj da, .obj db]) →
      ((pyStr ((objGet da "value").getD .null) = "0" ∧
        pyStr ((objGet db "value").getD .null) = "1") ∨
       (pyStr ((objGet da "value").getD .null) = "1" ∧
        pyStr ((objGet db "value").getD .null) = "0")) →
      (pyStr raw = "0" ∨ pyStr raw = "1") →
      friendly parse item =
        orTitleStatus
          (if pyStr ((objGet da "value").getD .null) = pyStr raw then da
           else db)
          (if pyEq raw (.int 1) || pyEq raw (.str "1") then "ON" else "OFF")
          ++ " (" ++ pyStr raw ++ ")") ∧
    friendly exParse exItemOn = "ON (1)" ∧
    friendly exParse exItemOff = "OFF (0)" := by
  refine ⟨?_, rfl, rfl⟩
  intro parse item da db s raw hv hd hs hp hvals hraw
  have ht : pyTruthy (.str s) = true := by simp [pyTruthy, hs]
  have hcore : friendlyCore parse item =
      .ok (enumBranch raw [.obj da, .obj db]) := by
    simp [friendlyCore, hv, hd, ht, pyLoads, hp, isObjJ]
  rcases hvals with ⟨ha, hb⟩ | ⟨ha, hb⟩ <;> rcases hraw with hr | hr <;>
    simp [friendly, hcore, enumBranch, binaryScan, jObjKvs, ha, hb, hr]

/-- Witness for claim C5: the general statement applied to raw value 1
and the OFF/ON definition, evaluated to "ON (1)". -/
theorem friendly_binary_status_witness :
    friendly exParse exItemOn = "ON (1)" := by
  have h := friendly_binary_status.1 exParse exItemOn bin0Kvs bin1Kvs
    "bindef" (.int 1) rfl rfl (by decide) rfl (Or.inl ⟨rfl, rfl⟩)
    (Or.inr (by decide))
  exact h.trans rfl

/-- Claim C6: on a live session, `set_charge_mode(mode)` first transmits
exactly one command whose envelope has `Action` set to
`setPropertyData`, `id` set to 35, `value` set to the mode and `mac` set
to the device identifier, and it returns true if and only if a reply
arrived, parsed, and its `code` equals 200 — every exception and every
other code yields false. -/
theorem set_charge_mode_spec (parse : String → Option Json) (s : Session)
    (mode : Int) (net : NetOutcome)
    (hc : s.connected = true) (hw : s.websocket.isSome = true) :
    (set_charge_mode parse s mode net).2.head? =
        some (.sent (buildCommand "setPropertyData"
          [("id", .int 35), ("value", .int mode)] s.mac)) ∧
      objGet (buildCommand "setPropertyData"
          [("id", .int 35), ("value", .int mode)] s.mac) "Action" =
        some (.str "setPropertyData") ∧
      objGet (buildCommand "setPropertyData"
          [("id", .int 35), ("value", .int mode)] s.mac) "id" =
        some (.int 35) ∧
      objGet (buildCommand "setPropertyData"
          [("id", .int 35), ("value", .int mode)] s.mac) "value" =
        some (.int mode) ∧
      objGet (buildCommand "setPropertyData"
          [("id", .int 35), ("value", .int mode)] s.mac) "mac" =
        some (.str s.mac) ∧
      (set_charge_mode parse s mode net).1 = netReplyOk parse net := by
  obtain ⟨b, hb⟩ := Option.isSome_iff_exists.mp hw
  refine ⟨?_, rfl, rfl, rfl, rfl, ?_⟩
  · cases net with
    | sendErr => simp [set_charge_mode, send_command, hc, hb]
    | recvTimeout => simp [set_charge_mode, send_command, hc, hb]
    | recvErr => simp [set_charge_mode, send_command, hc, hb]
    | reply payload =>
      cases hp : parse payload with
      | none => simp [set_charge_mode, send_command, hc, hb, hp]
      | some j => simp [set_charge_mode, send_command, hc, hb, hp]
  · cases net with
    | sendErr => simp [set_charge_mode, send_command, netReplyOk, hc, hb]
    | recvTimeout => simp [set_charge_mode, send_command, netReplyOk, hc, hb]
    | recvErr => simp [set_charge_mode, send_command, netReplyOk, hc, hb]
    | reply payload =>
      cases hp : parse payload with
      | none => simp [set_charge_mode, send_command, netReplyOk, hc, hb, hp]
      | some j => simp [set_charge_mode, send_command, netReplyOk, hc, hb, hp]

/-- Witness for claim C6: setting mode 2 on a live session with a parsed
code-200 reply. -/
theorem set_charge_mode_spec_witness :
    (set_charge_mode exParse connSession 2 (.reply "ok200")).2.head? =
        some (.sent (buildCommand "setPropertyData"
          [("id", .int 35), ("value", .int 2)] connSession.mac)) ∧
      objGet (buildCommand "setPropertyData"
          [("id", .int 35), ("value", .int 2)] connSession.mac) "Action" =
        some (.str "setPropertyData") ∧
      objGet (buildCommand "setPropertyData"
          [("id", .int 35), ("value", .int 2)] connSession.mac) "id" =
        some (.int 35) ∧
      objGet (buildCommand "setPropertyData"
          [("id", .int 35), ("value", .int 2)] connSession.mac) "value" =
        some (.int 2) ∧
      objGet (buildCommand "setPropertyData"
          [("id", .int 35), ("value", .int 2)] connSession.mac) "mac" =
        some (.str connSession.mac) ∧
      (set_charge_mode exParse connSession 2 (.reply "ok200")).1 =
        netReplyOk exParse (.reply "ok200") :=
  set_charge_mode_spec exParse connSession 2 (.reply "ok200") rfl rfl
